import Mathlib

/-!
# Verification of the snoots core: Gateway response normalization and
# Session Client dispatch

A shallow embedding of the snoots Reddit API client core:

* `src/gateway/gateway.ts` — the abstract `Gateway` class: request option
  construction (`buildOptions`), the form/json POST payload merging
  (`post` / `postJson`), the response-envelope normalization protocol
  (`unwrap` / `handleError`) and the rate-limit recording hook
  (`updateRatelimit`).
* the Session `Client` — credential-based Gateway dispatch (`get` /
  `post` / `postJson`), re-authorization (`reAuth`), the OAuth bootstrap
  helper (`fromAuthCode`) and client-side token refresh
  (`updateAccessToken` / `oAuth`).

Response bodies are raw JavaScript values, so we model a small dynamic
value universe `JVal` together with the JavaScript primitive operations
the source relies on (`typeof`, the `in` operator, property access,
string conversion, number coercion, truthiness, `parseInt`).
-/

set_option autoImplicit false

namespace Snoots

/-- A decoded JavaScript value, as produced by `response.json()`.
`undefined` is JavaScript's `undefined`, distinct from `null`. Numbers are
modelled as integers (every number appearing in this core is integral). -/
inductive JVal where
  | undefined
  | null
  | bool (b : Bool)
  | num (n : Int)
  | str (s : String)
  | arr (xs : List JVal)
  | obj (fields : List (String × JVal))

/-- First-match association-list lookup; JavaScript object literals have
unique keys, so this is exactly object property lookup. -/
def lookupField : List (String × JVal) → String → Option JVal
  | [], _ => none
  | (k', v) :: rest, k => if k' = k then some v else lookupField rest k

/-- JavaScript's `typeof` operator. Note `typeof null` is `"object"`. -/
def jsTypeof : JVal → String
  | .undefined => "undefined"
  | .null => "object"
  | .bool _ => "boolean"
  | .num _ => "number"
  | .str _ => "string"
  | .arr _ => "object"
  | .obj _ => "object"

/-- Own-property lookup (`v[k]` as an `Option`): only objects own the
string keys this code probes (`"json"`, `"error"`, …). -/
def jsGetOpt : JVal → String → Option JVal
  | .obj fs, k => lookupField fs k
  | _, _ => none

/-- The `in` operator restricted to the non-null object operands on which
the source applies it (`"json" in response`, `"error" in response`). -/
def jsHasKey (v : JVal) (k : String) : Bool :=
  (jsGetOpt v k).isSome

/-- Property access `v.k`: a missing property reads as `undefined`. -/
def jsGetProp (v : JVal) (k : String) : JVal :=
  (jsGetOpt v k).getD .undefined

mutual

/-- JavaScript string conversion `String(v)` (used by template literals).
Array elements that are `null`/`undefined` render as empty strings. -/
def jsToString : JVal → String
  | .undefined => "undefined"
  | .null => "null"
  | .bool b => if b then "true" else "false"
  | .num n => toString n
  | .str s => s
  | .arr xs => String.intercalate "," (jsToStringElems xs)
  | .obj _ => "[object Object]"

/-- Stringify array elements for `Array.prototype.join`. -/
def jsToStringElems : List JVal → List String
  | [] => []
  | x :: rest =>
    (match x with
     | .undefined => ""
     | .null => ""
     | x => jsToString x) :: jsToStringElems rest

end

/-- JavaScript ToNumber on a string: trimmed empty string is `0`, a signed decimal
numeral is its value, anything else is NaN (`none`). -/
def strToNumber (s : String) : Option Int :=
  let cs := s.toList.dropWhile (fun c => c = ' ' ∨ c = '\t' ∨ c = '\n')
  let cs := (cs.reverse.dropWhile (fun c => c = ' ' ∨ c = '\t' ∨ c = '\n')).reverse
  match cs with
  | [] => some 0
  | '-' :: rest =>
    if rest ≠ [] ∧ rest.all Char.isDigit then
      some (-(rest.foldl (fun acc c => acc * 10 + (c.toNat - 48)) 0 : Int))
    else none
  | '+' :: rest =>
    if rest ≠ [] ∧ rest.all Char.isDigit then
      some (rest.foldl (fun acc c => acc * 10 + (c.toNat - 48)) 0 : Int)
    else none
  | _ =>
    if cs.all Char.isDigit then
      some (cs.foldl (fun acc c => acc * 10 + (c.toNat - 48)) 0 : Int)
    else none

/-- JavaScript `ToNumber` coercion; `none` is NaN. Arrays coerce through
their string form; plain objects coerce to NaN. -/
def jsToNumber : JVal → Option Int
  | .undefined => none
  | .null => some 0
  | .bool b => some (if b then 1 else 0)
  | .num n => some n
  | .str s => strToNumber s
  | .arr xs => strToNumber (jsToString (.arr xs))
  | .obj _ => none

/-- JavaScript truthiness (`if (v)`). -/
def jsTruthy : JVal → Bool
  | .undefined => false
  | .null => false
  | .bool b => b
  | .num n => n ≠ 0
  | .str s => s ≠ ""
  | .arr _ => true
  | .obj _ => true

/-- The property read `v.length`; `none` models the `TypeError` raised
when the receiver is `null`/`undefined`. -/
def jsLengthProp : JVal → Option JVal
  | .undefined => none
  | .null => none
  | .str s => some (.num s.length)
  | .arr xs => some (.num xs.length)
  | .obj fs => some ((lookupField fs "length").getD .undefined)
  | .num _ => some .undefined
  | .bool _ => some .undefined

/-- The comparison `v > 0` after `ToNumber` coercion (NaN compares false). -/
def jsGtZero (v : JVal) : Bool :=
  match jsToNumber v with
  | some n => 0 < n
  | none => false

/-- The element read `v[0]` on the receivers reachable in `unwrap`. -/
def jsIndexZero : JVal → JVal
  | .arr (x :: _) => x
  | .arr [] => .undefined
  | .str s => if s.isEmpty then .undefined else .str (String.singleton (s.get 0))
  | .obj fs => (lookupField fs "0").getD .undefined
  | _ => .undefined

/-! ## Gateway.unwrap — response-envelope normalization
(`src/gateway/gateway.ts`, `handleError` and `unwrap`). -/

/-- Outcome of `Gateway.unwrap`: a returned value, a thrown normalized
API error (carrying the `Error` message built by `handleError`), or a raw
runtime `TypeError` escaping from the untyped JavaScript operations. -/
inductive UnwrapResult where
  | ok (v : JVal)
  | apiError (message : String)
  | typeError

/-- Source `Gateway.handleError(message, description?)`: builds the message
`"Reddit returned an error: ${message}"`, appending `": ${description}"`
only when `description` is truthy. An omitted argument is `undefined`
(pass `.undefined`). -/
def handleError (message : JVal) (description : JVal) : String :=
  let errorMessage := "Reddit returned an error: " ++ jsToString message
  if jsTruthy description then errorMessage ++ ": " ++ jsToString description
  else errorMessage

/-- Source `Gateway.unwrap(response)`:
```ts
if (typeof response !== "object") { return response; }
else if ("json" in response) {
  const { errors, data } = response.json;
  if (errors.length > 0) { this.handleError(errors[0]); }
  else { return data!; }
} else {
  if ("error" in response) {
    this.handleError(response.error, response.error_description);
  } else { return response; }
}
```
`typeof null` is `"object"`, so a `null` response reaches the
`"json" in response` test, which raises a `TypeError` on `null`; likewise
destructuring a `null`/`undefined` `response.json`, or reading `.length`
off a missing `errors` slot, raises a `TypeError`. -/
def unwrap (response : JVal) : UnwrapResult :=
  if jsTypeof response ≠ "object" then .ok response
  else match response with
    | .null => .typeError
    | r =>
      if jsHasKey r "json" then
        match jsGetOpt r "json" with
        | some .undefined => .typeError
        | some .null => .typeError
        | none => .typeError
        | some j =>
          let errors := jsGetProp j "errors"
          match jsLengthProp errors with
          | none => .typeError
          | some lengthVal =>
            if jsGtZero lengthVal then
              .apiError (handleError (jsIndexZero errors) .undefined)
            else
              .ok (jsGetProp j "data")
      else if jsHasKey r "error" then
        .apiError (handleError (jsGetProp r "error") (jsGetProp r "error_description"))
      else
        .ok r

/-! ## Gateway.updateRatelimit — rate-limit recording
(`src/gateway/gateway.ts`, the `afterResponse` hook). -/

/-- JavaScript `parseInt` as applied to a response header slot: the header
is `undefined` (`none`) when absent, and `parseInt` of `undefined` or of a
non-numeric string is NaN. NaN is modelled as `none` in the result. -/
def parseIntJS : Option String → Option Int
  | none => none
  | some s =>
    let cs := s.toList.dropWhile (fun c => c = ' ' ∨ c = '\t' ∨ c = '\n')
    match cs with
    | '-' :: rest =>
      if (rest.takeWhile Char.isDigit) = [] then none
      else some (-(((rest.takeWhile Char.isDigit).foldl
        (fun acc c => acc * 10 + (c.toNat - 48)) 0 : Nat) : Int))
    | '+' :: rest =>
      if (rest.takeWhile Char.isDigit) = [] then none
      else some (((rest.takeWhile Char.isDigit).foldl
        (fun acc c => acc * 10 + (c.toNat - 48)) 0 : Nat) : Int)
    | _ =>
      if (cs.takeWhile Char.isDigit) = [] then none
      else some (((cs.takeWhile Char.isDigit).foldl
        (fun acc c => acc * 10 + (c.toNat - 48)) 0 : Nat) : Int)

/-- The Gateway's rate-limit snapshot (`RateLimit` in `gateway/types`):
`remaining` and `reset` are JavaScript numbers, so either field may hold
NaN (modelled `none`) when header parsing failed. -/
structure RateLimit where
  remaining : Option Int
  reset : Option Int
deriving DecidableEq

/-- NaN-propagating addition/multiplication on JavaScript numbers. -/
def jsNumAdd (a b : Option Int) : Option Int :=
  match a, b with
  | some x, some y => some (x + y)
  | _, _ => none

/-- NaN-propagating multiplication on JavaScript numbers. -/
def jsNumMul (a b : Option Int) : Option Int :=
  match a, b with
  | some x, some y => some (x * y)
  | _, _ => none

/-- Source `Gateway.updateRatelimit(response)`:
```ts
const remain = parseInt(headers["x-ratelimit-remaining"] as string);
const reset = parseInt(headers["x-ratelimit-reset"] as string) * 1000;
this.rateLimit = { remaining: remain, reset: Date.now() + reset };
```
It overwrites `this.rateLimit` unconditionally; `prev` is the snapshot
held before the hook ran, `now` is `Date.now()`. The hook returns the
response unchanged and never throws. -/
def updateRatelimit (prev : Option RateLimit) (remainingHeader resetHeader : Option String)
    (now : Int) : Option RateLimit :=
  let _ := prev
  let remain := parseIntJS remainingHeader
  let reset := jsNumMul (parseIntJS resetHeader) (some 1000)
  some { remaining := remain, reset := jsNumAdd (some now) reset }

/-! ## Gateway request construction
(`src/gateway/gateway.ts`: `buildOptions`, `post`, `postJson`, `doPost`). -/

/-- JavaScript property assignment `fields[k] = v` on an object literal:
an existing key keeps its position and gets the new value, a new key is
appended. Spreading `{...a, k: v, ...}` assigns keys in order, so object
spread is a fold of this operation. -/
def setKey : List (String × JVal) → String → JVal → List (String × JVal)
  | [], k, v => [(k, v)]
  | (k', v') :: rest, k, v =>
    if k' = k then (k, v) :: rest else (k', v') :: setKey rest k v

/-- JavaScript object spread `{...base, ...extra}`: later keys win. -/
def jsSpread (base extra : List (String × JVal)) : List (String × JVal) :=
  extra.foldl (fun acc kv => setKey acc kv.1 kv.2) base

/-- The value a sequence of JavaScript property assignments leaves under
key `k`: the last occurrence wins (object spread assigns in order). -/
def lastLookup : List (String × JVal) → String → Option JVal
  | [], _ => none
  | (k', v) :: rest, k =>
    match lastLookup rest k with
    | some w => some w
    | none => if k' = k then some v else none

/-- The result of a Gateway `auth()` call (`Auth` in `gateway/types`):
either a bearer token or HTTP Basic credentials. -/
inductive GAuth where
  | bearer (b : String)
  | basic (user pass : String)
deriving DecidableEq

/-- The request options `buildOptions` assembles (the fields of the `got`
options object this core sets). Headers use `setKey` assignment on a
string-valued map. -/
structure GotOptions where
  prefixUrl : String
  headers : List (String × String)
  searchParams : List (String × JVal)
  username : Option String
  password : Option String

/-- Assignment on the string-valued headers map. -/
def setHeader : List (String × String) → String → String → List (String × String)
  | [], k, v => [(k, v)]
  | (k', v') :: rest, k, v =>
    if k' = k then (k, v) :: rest else (k', v') :: setHeader rest k v

/-- Source `Gateway.buildOptions(query)`:
```ts
const options = {
  prefixUrl: this.endpoint,
  headers: { "user-agent": this.userAgent },
  searchParams: { ...query, raw_json: 1, api_type: "json" },
  hooks: { afterResponse: [r => this.updateRatelimit(r)] },
};
const auth = await this.auth();
if (auth) {
  if ("bearer" in auth) options.headers["Authorization"] = `bearer ${auth.bearer}`;
  else { options.username = auth.user; options.password = auth.pass; }
}
```
The abstract `auth()` result is passed in as `authResult`; the
`afterResponse` hook is `updateRatelimit`, modelled separately. -/
def buildOptions (endpoint userAgent : String) (authResult : Option GAuth)
    (query : List (String × JVal)) : GotOptions :=
  let options : GotOptions := {
    prefixUrl := endpoint
    headers := [("user-agent", userAgent)]
    searchParams := jsSpread query [("raw_json", .num 1), ("api_type", .str "json")]
    username := none
    password := none }
  match authResult with
  | none => options
  | some (.bearer b) =>
    { options with headers := setHeader options.headers "Authorization" ("bearer " ++ b) }
  | some (.basic user pass) =>
    { options with username := some user, password := some pass }

/-- How a POST body is encoded: `post` sends `form` (URL-encoded),
`postJson` sends `json`. -/
inductive BodyKind where
  | form
  | json
deriving DecidableEq

/-- A request as handed to the transport: the built options plus, for
write requests, the merged body (`doPost` spreads the form/json options
over the base options, leaving `searchParams` and headers intact). -/
structure SentRequest where
  options : GotOptions
  bodyKind : Option BodyKind
  body : List (String × JVal)

/-- Source `Gateway.get(path, query)`: builds options and performs a GET (no
body). -/
def gatewayGet (endpoint userAgent : String) (authResult : Option GAuth)
    (query : List (String × JVal)) : SentRequest :=
  { options := buildOptions endpoint userAgent authResult query
    bodyKind := none
    body := [] }

/-- Source `Gateway.post(path, form, query)`:
`const formOptions = { form: { api_type: "json", ...form } }` followed by
`doPost`, which merges these over `buildOptions(query)`. -/
def gatewayPost (endpoint userAgent : String) (authResult : Option GAuth)
    (form query : List (String × JVal)) : SentRequest :=
  { options := buildOptions endpoint userAgent authResult query
    bodyKind := some .form
    body := jsSpread [("api_type", .str "json")] form }

/-- Source `Gateway.postJson(path, json, query)`:
`const jsonOptions = { json: { api_type: "json", ...json } }` followed by
`doPost`. -/
def gatewayPostJson (endpoint userAgent : String) (authResult : Option GAuth)
    (json query : List (String × JVal)) : SentRequest :=
  { options := buildOptions endpoint userAgent authResult query
    bodyKind := some .json
    body := jsSpread [("api_type", .str "json")] json }

/-! ## Session Client
(the `Client` class: construction, `reAuth`, `fromAuthCode`,
`updateAccessToken`, `oAuth` and the `get`/`post`/`postJson` dispatch). -/

/-- App identity (`Credentials` in `helper/api/creds`). -/
structure Credentials where
  clientId : String
  clientSecret : String
deriving DecidableEq

/-- A live session token (`Token` in `helper/accessToken`): access value,
optional refresh value, expiry instant (milliseconds). -/
structure Token where
  access : String
  refresh : Option String
  expiration : Int
deriving DecidableEq

/-- The user auth descriptor (`Auth = UsernameAuth | TokenAuth`). The
refresh slot is optional because `fromAuthCode` writes
`{ refreshToken: client.token.refresh! }`, which stores `undefined` when
the exchanged token carried no refresh value. -/
inductive Auth where
  | usernamePass (username password : String)
  | refreshTok (refreshToken : Option String)
deriving DecidableEq

/-- An OAuth grant exchange submitted to the provider's token endpoint. -/
inductive Grant where
  | password (username pw : String)
  | refreshToken (token : Option String)
  | clientCredentials
  | authorizationCode (code redirectUri : String)
deriving DecidableEq

/-- Errors surfaced by the Client itself: the literal `throw "No creds"`
guards (a ConfigError in the spec's taxonomy). -/
inductive ClientError where
  | noCreds
deriving DecidableEq

/-- The mutable session state of a `Client` instance. -/
structure ClientState where
  auth : Option Auth
  creds : Option Credentials
  token : Option Token
  userAgent : String
deriving DecidableEq

/-- The outcome of a Token Manager call: the token to store and the grant
exchanges (network round-trips to the token endpoint) performed. -/
structure TokenExchange where
  token : Token
  exchanges : List Grant
deriving DecidableEq

/-- The grant `obtainOrRefresh` selects from the auth descriptor:
username/password → password grant, refresh descriptor → refresh-token
grant, no descriptor → client-credentials grant. -/
def grantForAuth : Option Auth → Grant
  | some (.usernamePass u p) => .password u p
  | some (.refreshTok r) => .refreshToken r
  | none => .clientCredentials

/-- Modelled from the spec: the Token Manager's
`updateAccessToken(userAgent, currentToken, credentials, authDescriptor)`
(`obtainOrRefresh` in `helper/accessToken`, whose source is not in the
repository snapshot). Per §4.1: if `currentToken` is present and not past
its expiry it is returned unchanged with no network call; otherwise a
grant is selected by case on the auth descriptor and exchanged. The
provider is modelled by `issue`, a function from the submitted grant to
the token it returns (grants are accepted; rejection would surface as an
`AuthError`, which no claim here exercises). `exchanges` records the
grant exchanges performed, in order. -/
def obtainOrRefresh (currentToken : Option Token) (creds : Credentials)
    (authDescriptor : Option Auth) (now : Int) (issue : Grant → Token) :
    TokenExchange :=
  let _ := creds
  match currentToken with
  | some t =>
    if now < t.expiration then { token := t, exchanges := [] }
    else { token := issue (grantForAuth authDescriptor)
           exchanges := [grantForAuth authDescriptor] }
  | none =>
    { token := issue (grantForAuth authDescriptor)
      exchanges := [grantForAuth authDescriptor] }

/-- Modelled from the spec: `tokenFromCode(code, creds, userAgent,
redirectUri)` (`helper/accessToken`, not in the snapshot) — the one-shot
authorization-code grant exchange (§4.1 `exchangeAuthorizationCode`). -/
def tokenFromCode (code : String) (creds : Credentials) (userAgent redirectUri : String)
    (issue : Grant → Token) : Token :=
  let _ := creds
  let _ := userAgent
  issue (.authorizationCode code redirectUri)

/-- Source `Client.updateAccessToken()`:
```ts
if (!this.creds) throw "No creds";
this.token = await updateAccessToken(this.userAgent, this.token, this.creds, this.auth);
```
Returns the stored token, the updated state and the grant exchanges
performed. -/
def clientUpdateAccessToken (c : ClientState) (now : Int) (issue : Grant → Token) :
    Except ClientError (Token × ClientState × List Grant) :=
  match c.creds with
  | none => .error .noCreds
  | some creds =>
    let r := obtainOrRefresh c.token creds c.auth now issue
    .ok (r.token, { c with token := some r.token }, r.exchanges)

/-- The bearer options `oAuth()` hands to the OAuth gateway
(`OauthOpts` in `helper/api/oauth`). -/
structure OauthOpts where
  token : String
  userAgent : String
deriving DecidableEq

/-- Source `Client.oAuth()`: refreshes the access token then returns
`{ token: this.token!.access, userAgent: this.userAgent }`. -/
def clientOAuth (c : ClientState) (now : Int) (issue : Grant → Token) :
    Except ClientError (OauthOpts × ClientState × List Grant) :=
  match clientUpdateAccessToken c now issue with
  | .error e => .error e
  | .ok (t, c2, grants) =>
    .ok ({ token := t.access, userAgent := c.userAgent }, c2, grants)

/-- Source `Client.reAuth(auth)`:
```ts
this.auth = auth;
this.token = null;
await this.updateAccessToken();
```
Note the grant exchange happens inside `reAuth` itself. -/
def reAuth (c : ClientState) (newAuth : Auth) (now : Int) (issue : Grant → Token) :
    Except ClientError (ClientState × List Grant) :=
  match clientUpdateAccessToken { c with auth := some newAuth, token := none } now issue with
  | .error e => .error e
  | .ok (_, c2, grants) => .ok (c2, grants)

/-- The options accepted by `Client.fromAuthCode` — `Required<Omit<ClientOptions,
"auth">>` at the type level, but the body still guards `if (!creds) throw`,
so credentials are modelled optional. -/
structure FromCodeOptions where
  creds : Option Credentials
  userAgent : String
deriving DecidableEq

/-- Source `Client.fromAuthCode(opts, code, redirectUri)`:
```ts
const creds = opts.creds;
if (!creds) throw "No creds";
const client = new this(opts);
client.token = await tokenFromCode(code, creds, client.userAgent, redirectUri);
client.auth = { refreshToken: client.token.refresh! };
return client;
```
The constructor stores `opts.auth` (absent here), `opts.creds`, a `null`
token and the user agent. -/
def fromAuthCode (opts : FromCodeOptions) (code redirectUri : String)
    (issue : Grant → Token) : Except ClientError ClientState :=
  match opts.creds with
  | none => .error .noCreds
  | some creds =>
    let client : ClientState :=
      { auth := none, creds := opts.creds, token := none, userAgent := opts.userAgent }
    let t := tokenFromCode code creds client.userAgent redirectUri issue
    .ok { client with token := some t, auth := some (.refreshTok t.refresh) }

/-- Which Gateway variant a Client call was routed to. -/
inductive GatewayChoice where
  | oauthGw
  | anonGw
deriving DecidableEq

/-- A call as delegated to a Gateway by the Client dispatch. -/
structure RoutedCall where
  gateway : GatewayChoice
  path : String
deriving DecidableEq

/-- Source `Client.get(path, query)`:
```ts
if (this.creds) { return oauth.get(await this.oAuth(), path, query); }
else { return anon.get(this.userAgent, path, query); }
```
The routing condition is exactly the truthiness of `this.creds`. -/
def clientGet (c : ClientState) (now : Int) (issue : Grant → Token)
    (path : String) (query : List (String × JVal)) :
    Except ClientError (RoutedCall × ClientState × List Grant) :=
  let _ := query
  match c.creds with
  | some _ =>
    match clientOAuth c now issue with
    | .error e => .error e
    | .ok (_, c2, grants) => .ok ({ gateway := .oauthGw, path := path }, c2, grants)
  | none => .ok ({ gateway := .anonGw, path := path }, c, [])

/-- Source `Client.post(path, data, query)`: same dispatch as `get`. -/
def clientPost (c : ClientState) (now : Int) (issue : Grant → Token)
    (path : String) (data query : List (String × JVal)) :
    Except ClientError (RoutedCall × ClientState × List Grant) :=
  let _ := data
  let _ := query
  match c.creds with
  | some _ =>
    match clientOAuth c now issue with
    | .error e => .error e
    | .ok (_, c2, grants) => .ok ({ gateway := .oauthGw, path := path }, c2, grants)
  | none => .ok ({ gateway := .anonGw, path := path }, c, [])

/-- Source `Client.postJson(path, data, query)`: same dispatch as `get`. -/
def clientPostJson (c : ClientState) (now : Int) (issue : Grant → Token)
    (path : String) (data query : List (String × JVal)) :
    Except ClientError (RoutedCall × ClientState × List Grant) :=
  let _ := data
  let _ := query
  match c.creds with
  | some _ =>
    match clientOAuth c now issue with
    | .error e => .error e
    | .ok (_, c2, grants) => .ok ({ gateway := .oauthGw, path := path }, c2, grants)
  | none => .ok ({ gateway := .anonGw, path := path }, c, [])

/-- The Gateway variant a dispatch result was routed to (`none` when the
call failed before routing). -/
def gatewayChoiceOf (r : Except ClientError (RoutedCall × ClientState × List Grant)) :
    Option GatewayChoice :=
  match r with
  | .error _ => none
  | .ok (call, _, _) => some call.gateway

/-- The grant exchanges a Client operation performed (`none` when the
operation failed). -/
def grantsOf {α : Type} (r : Except ClientError (α × ClientState × List Grant)) :
    Option (List Grant) :=
  match r with
  | .error _ => none
  | .ok (_, _, grants) => some grants

/-! ## Concrete example values used by the claim witnesses and
counterexamples. -/

/-- The provider used in the C5 example: every grant is answered with a
fresh token expiring at instant 100. -/
def exampleIssue : Grant → Token :=
  fun _ => { access := "freshaccess", refresh := none, expiration := 100 }

/-- The C5 example client before re-authorization: credentials and a
username/password descriptor, with a live token. -/
def exampleOldClient : ClientState :=
  { auth := some (.usernamePass "olduser" "oldpw")
    creds := some { clientId := "cid", clientSecret := "csec" }
    token := some { access := "oldaccess", refresh := some "oldrefresh", expiration := 50 }
    userAgent := "ua" }

/-- The C5 example client after `reAuth` with the `{refreshToken: "r2"}`
descriptor: the new descriptor is stored and a fresh token is already in
place. -/
def exampleNewClient : ClientState :=
  { exampleOldClient with
    auth := some (.refreshTok (some "r2"))
    token := some { access := "freshaccess", refresh := none, expiration := 100 } }

/-- The provider used in the C9 witness: the authorization-code grant
yields a token with refresh value `"rt"` expiring at 100; any later
grant yields a token expiring at 200. -/
def exampleCodeIssue : Grant → Token
  | .authorizationCode _ _ => { access := "a1", refresh := some "rt", expiration := 100 }
  | _ => { access := "a2", refresh := none, expiration := 200 }

/-- The options used in the C9 witness, with credentials present. -/
def exampleCodeOptions : FromCodeOptions :=
  { creds := some { clientId := "cid", clientSecret := "cs" }, userAgent := "ua" }

/-- The client `fromAuthCode` produces in the C9 witness: token from the
code exchange, descriptor seeded with its refresh value `"rt"`. -/
def exampleCodeClient : ClientState :=
  { auth := some (.refreshTok (some "rt"))
    creds := some { clientId := "cid", clientSecret := "cs" }
    token := some { access := "a1", refresh := some "rt", expiration := 100 }
    userAgent := "ua" }

/-! ## Lemmas and claim theorems. -/


/-! ## Association-map lemmas used by the theorems. -/

lemma lookupField_setKey (fs : List (String × JVal)) (k : String) (v : JVal) (k' : String) :
    lookupField (setKey fs k v) k' = if k = k' then some v else lookupField fs k' := by
  induction fs with
  | nil => by_cases h : k = k' <;> simp [setKey, lookupField, h]
  | cons hd tl ih =>
    obtain ⟨hk, hv⟩ := hd
    by_cases h1 : hk = k
    · subst h1
      by_cases h2 : hk = k' <;> simp [setKey, lookupField, h2]
    · by_cases h2 : hk = k'
      · subst h2
        simp [setKey, lookupField, h1]
        rw [if_neg (fun heq => h1 heq.symm)]
      · simp [setKey, lookupField, h1, h2, ih]



lemma lookupField_jsSpread (extra : List (String × JVal)) (base : List (String × JVal))
    (k : String) :
    lookupField (jsSpread base extra) k =
      match lastLookup extra k with
      | some w => some w
      | none => lookupField base k := by
  induction extra generalizing base with
  | nil => simp [jsSpread, lastLookup]
  | cons hd tl ih =>
    obtain ⟨hk, hv⟩ := hd
    have hstep : jsSpread base ((hk, hv) :: tl) = jsSpread (setKey base hk hv) tl := rfl
    rw [hstep, ih]
    cases htl : lastLookup tl k with
    | some w => simp [lastLookup, htl]
    | none =>
      simp only [lastLookup, htl, lookupField_setKey]
      by_cases h : hk = k <;> simp [h]

lemma lastLookup_eq_none_iff (fs : List (String × JVal)) (k : String) :
    lastLookup fs k = none ↔ lookupField fs k = none := by
  induction fs with
  | nil => simp [lastLookup, lookupField]
  | cons hd tl ih =>
    obtain ⟨hk, hv⟩ := hd
    cases htl : lastLookup tl k with
    | some w =>
      have h1 : ¬ lookupField tl k = none := fun hn => by simp [ih.mpr hn] at htl
      simp only [lastLookup, htl, lookupField]
      by_cases h : hk = k <;> simp [h, h1]
    | none =>
      have h1 : lookupField tl k = none := ih.mp htl
      simp only [lastLookup, htl, lookupField]
      by_cases h : hk = k <;> simp [h, h1]

lemma lookupField_eq_none_of_not_mem (fs : List (String × JVal)) (k : String)
    (h : k ∉ fs.map Prod.fst) : lookupField fs k = none := by
  induction fs with
  | nil => simp [lookupField]
  | cons hd tl ih =>
    obtain ⟨hk, hv⟩ := hd
    simp only [List.map, List.mem_cons] at h
    push_neg at h
    have hne : ¬ hk = k := fun heq => h.1 heq.symm
    simp [lookupField, hne, ih h.2]

lemma lastLookup_eq_lookupField_of_nodup (fs : List (String × JVal)) (k : String)
    (h : (fs.map Prod.fst).Nodup) : lastLookup fs k = lookupField fs k := by
  induction fs with
  | nil => simp [lastLookup, lookupField]
  | cons hd tl ih =>
    obtain ⟨hk, hv⟩ := hd
    simp only [List.map, List.nodup_cons] at h
    by_cases heq : hk = k
    · subst heq
      have : lookupField tl hk = none := lookupField_eq_none_of_not_mem tl hk h.1
      have : lastLookup tl hk = none := (lastLookup_eq_none_iff tl hk).mpr this
      simp [lastLookup, lookupField, this]
    · cases htl : lastLookup tl k with
      | some w => simp [lastLookup, lookupField, htl, heq, ← ih h.2, htl]
      | none => simp [lastLookup, lookupField, htl, heq, ← ih h.2, htl]

/-! ## Claims -/

/-- C1. For every response body containing the result-wrapper key `json`
(whose value carries an `errors` array and a `data` slot): a non-empty
`errors` fails with an `ApiError` built from the first error entry, and
an empty `errors` returns the value in the `data` slot. -/
theorem unwrap_wrapper_envelope (fields jf : List (String × JVal)) (es : List JVal) (d : JVal)
    (hjson : lookupField fields "json" = some (.obj jf))
    (herrs : lookupField jf "errors" = some (.arr es))
    (hdata : lookupField jf "data" = some d) :
    (es = [] → unwrap (.obj fields) = .ok d) ∧
    (∀ e rest, es = e :: rest →
      unwrap (.obj fields) = .apiError ("Reddit returned an error: " ++ jsToString e)) := by
  constructor
  · intro h
    subst h
    simp [unwrap, jsTypeof, jsHasKey, jsGetOpt, hjson, jsGetProp, herrs, hdata,
      jsLengthProp, jsGtZero, jsToNumber]
  · intro e rest h
    subst h
    simp [unwrap, jsTypeof, jsHasKey, jsGetOpt, hjson, jsGetProp, herrs, hdata,
      jsLengthProp, jsGtZero, jsToNumber, handleError, jsTruthy, jsIndexZero]

/-- Witness for C1: `unwrap({json: {errors: [], data: {ok: true}}})`
returns `{ok: true}`, and `unwrap({json: {errors: ["bad thing"], data:
null}})` fails with the ApiError derived from `"bad thing"`. -/
theorem unwrap_wrapper_envelope_witness :
    unwrap (.obj [("json", .obj [("errors", .arr []), ("data", .obj [("ok", .bool true)])])])
      = .ok (.obj [("ok", .bool true)]) ∧
    unwrap (.obj [("json", .obj [("errors", .arr [.str "bad thing"]), ("data", .null)])])
      = .apiError "Reddit returned an error: bad thing" :=
  ⟨(unwrap_wrapper_envelope [("json", .obj [("errors", .arr []), ("data", .obj [("ok", .bool true)])])]
      [("errors", .arr []), ("data", .obj [("ok", .bool true)])] [] (.obj [("ok", .bool true)])
      rfl rfl rfl).1 rfl,
   (unwrap_wrapper_envelope [("json", .obj [("errors", .arr [.str "bad thing"]), ("data", .null)])]
      [("errors", .arr [.str "bad thing"]), ("data", .null)] [.str "bad thing"] .null
      rfl rfl rfl).2 (.str "bad thing") [] rfl⟩

/-- C2 counterexample: for the body `{error: "404", error_description: ""}`
the description field is present, yet the message produced is exactly
`"Reddit returned an error: 404"`, not the claimed
`"Reddit returned an error: 404: "` — `handleError` tests truthiness,
not presence, of the description. -/
theorem unwrap_error_description_counterexample :
    unwrap (.obj [("error", .str "404"), ("error_description", .str "")])
      = .apiError "Reddit returned an error: 404" ∧
    (("Reddit returned an error: 404" == "Reddit returned an error: 404: ") = false) :=
  ⟨rfl, rfl⟩

/-- C2 (amended): with a top-level `error` field and no wrapper key, the
message is `"Reddit returned an error: <error>"` when the description
field is absent or falsy (e.g. the empty string), and
`"Reddit returned an error: <error>: <description>"` when a truthy
description is present. -/
theorem unwrap_top_level_error (fields : List (String × JVal)) (e : JVal)
    (hnojson : lookupField fields "json" = none)
    (herr : lookupField fields "error" = some e) :
    (lookupField fields "error_description" = none →
      unwrap (.obj fields) = .apiError ("Reddit returned an error: " ++ jsToString e)) ∧
    (∀ d, lookupField fields "error_description" = some d → jsTruthy d = true →
      unwrap (.obj fields)
        = .apiError ("Reddit returned an error: " ++ jsToString e ++ ": " ++ jsToString d)) ∧
    (∀ d, lookupField fields "error_description" = some d → jsTruthy d = false →
      unwrap (.obj fields) = .apiError ("Reddit returned an error: " ++ jsToString e)) := by
  refine ⟨fun hd => ?_, fun d hd ht => ?_, fun d hd ht => ?_⟩
  · simp [unwrap, jsTypeof, jsHasKey, jsGetOpt, hnojson, herr, hd, jsGetProp,
      handleError, jsTruthy]
  · simp [unwrap, jsTypeof, jsHasKey, jsGetOpt, hnojson, herr, hd, jsGetProp,
      handleError, ht]
  · simp [unwrap, jsTypeof, jsHasKey, jsGetOpt, hnojson, herr, hd, jsGetProp,
      handleError, ht]

/-- Witness for C2 (amended): `unwrap({error: "404", error_description:
"not found"})` fails with message `"Reddit returned an error: 404: not
found"`; without a description the suffix is dropped. -/
theorem unwrap_top_level_error_witness :
    unwrap (.obj [("error", .str "404"), ("error_description", .str "not found")])
      = .apiError "Reddit returned an error: 404: not found" ∧
    unwrap (.obj [("error", .str "404")])
      = .apiError "Reddit returned an error: 404" :=
  ⟨(unwrap_top_level_error [("error", .str "404"), ("error_description", .str "not found")]
      (.str "404") rfl rfl).2.1 (.str "not found") rfl rfl,
   (unwrap_top_level_error [("error", .str "404")] (.str "404") rfl rfl).1 rfl⟩

/-- C3 (code bug). On a response with missing (or non-numeric)
rate-limit headers `parseInt` yields NaN, and the hook still overwrites
the stored snapshot — with `{remaining: NaN, reset: NaN}` — instead of
leaving it unchanged. (It does return normally: no error propagates.) -/
theorem updateRatelimit_overwrites_on_parse_failure :
    updateRatelimit (some { remaining := some 10, reset := some 999 }) none none 5000
      = some { remaining := none, reset := none } ∧
    updateRatelimit (some { remaining := some 10, reset := some 999 })
        (some "unknown") (some "n/a") 5000
      = some { remaining := none, reset := none } ∧
    ((updateRatelimit (some { remaining := some 10, reset := some 999 }) none none 5000
        == some { remaining := some 10, reset := some 999 }) = false) :=
  ⟨rfl, rfl, rfl⟩

/-- C7. Non-structured bodies (`typeof` other than `"object"`) are
returned unchanged, and structured bodies carrying neither the wrapper
key `json` nor a top-level `error` field — plain objects and arrays —
are returned unchanged. -/
theorem unwrap_passthrough :
    (∀ v : JVal, jsTypeof v ≠ "object" → unwrap v = .ok v) ∧
    (∀ fields, lookupField fields "json" = none → lookupField fields "error" = none →
      unwrap (.obj fields) = .ok (.obj fields)) ∧
    (∀ xs, unwrap (.arr xs) = .ok (.arr xs)) := by
  refine ⟨fun v hv => ?_, fun fields h1 h2 => ?_, fun xs => ?_⟩
  · cases v <;> simp_all [unwrap, jsTypeof]
  · simp [unwrap, jsTypeof, jsHasKey, jsGetOpt, h1, h2]
  · simp [unwrap, jsTypeof, jsHasKey, jsGetOpt]

/-- Witness for C7: `unwrap("hi")` and `unwrap({foo: "bar"})` return
their inputs unchanged. -/
theorem unwrap_passthrough_witness :
    unwrap (.str "hi") = .ok (.str "hi") ∧
    unwrap (.obj [("foo", .str "bar")]) = .ok (.obj [("foo", .str "bar")]) :=
  ⟨unwrap_passthrough.1 (.str "hi") (by decide),
   unwrap_passthrough.2.1 [("foo", .str "bar")] rfl rfl⟩

/-- C8. After a response whose rate-limit headers parse to a remaining
count `r` and a reset delta of `s` seconds, the snapshot is overwritten
to exactly `{remaining = r, reset = now + s * 1000}` milliseconds. -/
theorem updateRatelimit_numeric_headers (prev : Option RateLimit) (rs ss : String)
    (r s now : Int) (hr : parseIntJS (some rs) = some r) (hs : parseIntJS (some ss) = some s) :
    updateRatelimit prev (some rs) (some ss) now
      = some { remaining := some r, reset := some (now + s * 1000) } := by
  simp [updateRatelimit, hr, hs, jsNumMul, jsNumAdd]

/-- Witness for C8: headers `remaining=59`, `reset=600` give remaining 59
and a reset instant of now + 600000 ms. -/
theorem updateRatelimit_numeric_headers_witness :
    parseIntJS (some "59") = some 59 ∧ parseIntJS (some "600") = some 600 ∧
    updateRatelimit none (some "59") (some "600") 1700000000000
      = some { remaining := some 59, reset := some (1700000000000 + 600 * 1000) } :=
  ⟨rfl, rfl, updateRatelimit_numeric_headers none "59" "600" 59 600 1700000000000 rfl rfl⟩

/-- C10. JavaScript's `typeof null` is `"object"`, so `null` passes the
structured-value test, reaches the `"json" in response` membership test
and raises a raw `TypeError` — `unwrap` is not total on `null` bodies
(the result is neither `ok` nor a normalized `apiError`). -/
theorem unwrap_null_raises_typeError :
    jsTypeof JVal.null = "object" ∧ unwrap JVal.null = UnwrapResult.typeError :=
  ⟨rfl, rfl⟩


/-- C6 counterexample: the body marker is spread *before* the caller
payload (`{ form: { api_type: "json", ...form } }`), so a payload that
itself carries `api_type` overrides the marker: the sent body's
`api_type` is the caller's value, not `"json"`. The query-string
defaults are spread *after* the caller query and always win. -/
theorem post_body_marker_override_counterexample :
    lookupField (gatewayPost "https://oauth.reddit.com" "ua" none
        [("api_type", JVal.str "x")] []).body "api_type" = some (JVal.str "x") ∧
    lookupField (gatewayPostJson "https://oauth.reddit.com" "ua" none
        [("api_type", JVal.str "x")] []).body "api_type" = some (JVal.str "x") ∧
    (("x" == "json") = false) :=
  ⟨rfl, rfl, rfl⟩

/-- C6 (amended). Every request's query string carries `raw_json=1` and
`api_type=json` (these defaults override any caller-supplied values);
each write request's body carries the `api_type=json` marker as a
default the caller payload can override: it is present whenever the
payload itself has no `api_type` key, and a caller-supplied `api_type`
value is kept instead. -/
theorem gateway_protocol_markers (endpoint ua : String) (a : Option GAuth)
    (form json query : List (String × JVal)) :
    lookupField (gatewayGet endpoint ua a query).options.searchParams "raw_json"
      = some (.num 1) ∧
    lookupField (gatewayGet endpoint ua a query).options.searchParams "api_type"
      = some (.str "json") ∧
    lookupField (gatewayPost endpoint ua a form query).options.searchParams "raw_json"
      = some (.num 1) ∧
    lookupField (gatewayPost endpoint ua a form query).options.searchParams "api_type"
      = some (.str "json") ∧
    lookupField (gatewayPostJson endpoint ua a json query).options.searchParams "raw_json"
      = some (.num 1) ∧
    lookupField (gatewayPostJson endpoint ua a json query).options.searchParams "api_type"
      = some (.str "json") ∧
    (lookupField form "api_type" = none →
      lookupField (gatewayPost endpoint ua a form query).body "api_type"
        = some (.str "json")) ∧
    (lookupField json "api_type" = none →
      lookupField (gatewayPostJson endpoint ua a json query).body "api_type"
        = some (.str "json")) ∧
    ((form.map Prod.fst).Nodup → ∀ v, lookupField form "api_type" = some v →
      lookupField (gatewayPost endpoint ua a form query).body "api_type" = some v) ∧
    ((json.map Prod.fst).Nodup → ∀ v, lookupField json "api_type" = some v →
      lookupField (gatewayPostJson endpoint ua a json query).body "api_type" = some v) := by
  have hsearch : ∀ q : List (String × JVal),
      lookupField (buildOptions endpoint ua a q).searchParams "raw_json" = some (.num 1) ∧
      lookupField (buildOptions endpoint ua a q).searchParams "api_type" = some (.str "json") := by
    intro q
    have hparams : (buildOptions endpoint ua a q).searchParams
        = jsSpread q [("raw_json", .num 1), ("api_type", .str "json")] := by
      cases a with
      | none => rfl
      | some ga => cases ga <;> rfl
    rw [hparams, lookupField_jsSpread, lookupField_jsSpread]
    constructor <;> rfl
  have hbodyNone : ∀ payload : List (String × JVal),
      lookupField payload "api_type" = none →
      lookupField (jsSpread [("api_type", JVal.str "json")] payload) "api_type"
        = some (.str "json") := by
    intro payload h
    rw [lookupField_jsSpread, (lastLookup_eq_none_iff payload "api_type").mpr h]
    rfl
  have hbodySome : ∀ payload : List (String × JVal), (payload.map Prod.fst).Nodup →
      ∀ v, lookupField payload "api_type" = some v →
      lookupField (jsSpread [("api_type", JVal.str "json")] payload) "api_type" = some v := by
    intro payload hnd v h
    rw [lookupField_jsSpread, lastLookup_eq_lookupField_of_nodup payload _ hnd, h]
  exact ⟨(hsearch query).1, (hsearch query).2, (hsearch query).1, (hsearch query).2,
    (hsearch query).1, (hsearch query).2, hbodyNone form, hbodyNone json,
    hbodySome form, hbodySome json⟩

/-- Witness for C6 (amended): with query `{limit: 25}` and payload
`{text: "hi"}`, the query string carries `raw_json=1` and
`api_type=json`, and the form body carries `api_type=json`. -/
theorem gateway_protocol_markers_witness :
    lookupField (gatewayGet "https://oauth.reddit.com" "ua" none
        [("limit", JVal.num 25)]).options.searchParams "raw_json" = some (.num 1) ∧
    lookupField (gatewayPost "https://oauth.reddit.com" "ua" none
        [("text", JVal.str "hi")] [("limit", JVal.num 25)]).options.searchParams "api_type"
      = some (.str "json") ∧
    lookupField (gatewayPost "https://oauth.reddit.com" "ua" none
        [("text", JVal.str "hi")] [("limit", JVal.num 25)]).body "api_type"
      = some (.str "json") :=
  ⟨(gateway_protocol_markers "https://oauth.reddit.com" "ua" none
      [("text", JVal.str "hi")] [] [("limit", JVal.num 25)]).1,
   (gateway_protocol_markers "https://oauth.reddit.com" "ua" none
      [("text", JVal.str "hi")] [] [("limit", JVal.num 25)]).2.2.2.1,
   (gateway_protocol_markers "https://oauth.reddit.com" "ua" none
      [("text", JVal.str "hi")] [] [("limit", JVal.num 25)]).2.2.2.2.2.2.1 rfl⟩

/-- C4. Which Gateway a `Client.get`/`post`/`postJson` call is routed to
depends only on whether Credentials are configured — the OAuth gateway
when present, the anonymous gateway otherwise — never on the path, the
payload, or the query. -/
theorem client_gateway_choice_by_creds_only (c : ClientState) (now : Int)
    (issue : Grant → Token) (path : String) (data query : List (String × JVal)) :
    gatewayChoiceOf (clientGet c now issue path query)
      = (if c.creds.isSome then some GatewayChoice.oauthGw else some GatewayChoice.anonGw) ∧
    gatewayChoiceOf (clientPost c now issue path data query)
      = (if c.creds.isSome then some GatewayChoice.oauthGw else some GatewayChoice.anonGw) ∧
    gatewayChoiceOf (clientPostJson c now issue path data query)
      = (if c.creds.isSome then some GatewayChoice.oauthGw else some GatewayChoice.anonGw) := by
  cases hc : c.creds <;>
    simp [clientGet, clientPost, clientPostJson, clientOAuth, clientUpdateAccessToken, hc,
      gatewayChoiceOf]







/-- C5 counterexample: `reAuth` performs the grant exchange *itself*
(`await this.updateAccessToken()` is its last step). At the concrete
input below, after `reAuth` completes the token has NOT been discarded
(a fresh one is stored), and the following protected call performs zero
— not one — grant exchanges. -/
theorem reAuth_eager_exchange_counterexample :
    reAuth exampleOldClient (Auth.refreshTok (some "r2")) 0 exampleIssue
      = .ok (exampleNewClient, [Grant.refreshToken (some "r2")]) ∧
    exampleNewClient.token.isSome = true ∧
    grantsOf (clientGet exampleNewClient 1 exampleIssue "r/test/about" []) = some [] ∧
    (grantsOf (clientGet exampleNewClient 1 exampleIssue "r/test/about" [])).map List.length
      = some 0 :=
  ⟨rfl, rfl, rfl, rfl⟩

/-- C5 (amended). When Credentials are configured, `reAuth(newAuth)`
stores `newAuth` as the descriptor, discards the old token, and itself
performs exactly one fresh grant exchange — the grant selected from
`newAuth` alone, never from the previous descriptor — storing the token
it returns; a following protected call made while that fresh token is
unexpired performs no further grant exchange. -/
theorem reAuth_replaces_descriptor_and_exchanges_once (c : ClientState) (creds : Credentials)
    (newAuth : Auth) (now : Int) (issue : Grant → Token) (hc : c.creds = some creds) :
    reAuth c newAuth now issue = .ok
      ({ c with auth := some newAuth, token := some (issue (grantForAuth (some newAuth))) },
        [grantForAuth (some newAuth)]) ∧
    (∀ now2, now2 < (issue (grantForAuth (some newAuth))).expiration →
      grantsOf (clientOAuth
        { c with auth := some newAuth, token := some (issue (grantForAuth (some newAuth))) }
        now2 issue) = some []) := by
  constructor
  · simp [reAuth, clientUpdateAccessToken, hc, obtainOrRefresh]
  · intro now2 h2
    simp [clientOAuth, clientUpdateAccessToken, hc, obtainOrRefresh, grantsOf, if_pos h2]

/-- Witness for C5 (amended), at the concrete example client: the
exchange performed by `reAuth` is the refresh-token grant for `"r2"`,
and the following `oAuth()` call at instant 1 performs none. -/
theorem reAuth_replaces_descriptor_and_exchanges_once_witness :
    reAuth exampleOldClient (Auth.refreshTok (some "r2")) 0 exampleIssue = .ok
      ({ exampleOldClient with
          auth := some (.refreshTok (some "r2"))
          token := some (exampleIssue (grantForAuth (some (.refreshTok (some "r2"))))) },
        [grantForAuth (some (.refreshTok (some "r2")))]) ∧
    grantsOf (clientOAuth
      { exampleOldClient with
          auth := some (.refreshTok (some "r2"))
          token := some (exampleIssue (grantForAuth (some (.refreshTok (some "r2"))))) }
      1 exampleIssue) = some [] :=
  ⟨(reAuth_replaces_descriptor_and_exchanges_once exampleOldClient
      { clientId := "cid", clientSecret := "csec" } (.refreshTok (some "r2")) 0 exampleIssue
      rfl).1,
   (reAuth_replaces_descriptor_and_exchanges_once exampleOldClient
      { clientId := "cid", clientSecret := "csec" } (.refreshTok (some "r2")) 0 exampleIssue
      rfl).2 1 (by decide)⟩

/-- C9. `fromAuthCode` fails with the no-credentials error when
Credentials are omitted; otherwise it returns a Client whose token is
the authorization-code exchange result and whose descriptor is seeded
with that token's refresh value (if any), so that once the token
expires, the next authenticated call performs a refresh-token grant with
exactly that value. -/
theorem fromAuthCode_spec (opts : FromCodeOptions) (code redirectUri : String)
    (issue : Grant → Token) :
    (opts.creds = none → fromAuthCode opts code redirectUri issue = .error .noCreds) ∧
    (∀ creds, opts.creds = some creds →
      fromAuthCode opts code redirectUri issue = .ok
        { auth := some (.refreshTok (issue (.authorizationCode code redirectUri)).refresh)
          creds := some creds
          token := some (issue (.authorizationCode code redirectUri))
          userAgent := opts.userAgent }) ∧
    (∀ cNew now2, fromAuthCode opts code redirectUri issue = .ok cNew →
      (issue (.authorizationCode code redirectUri)).expiration ≤ now2 →
      clientUpdateAccessToken cNew now2 issue = .ok
        (issue (.refreshToken (issue (.authorizationCode code redirectUri)).refresh),
         { cNew with token := some (issue (.refreshToken (issue (.authorizationCode code redirectUri)).refresh)) },
         [.refreshToken (issue (.authorizationCode code redirectUri)).refresh])) := by
  refine ⟨fun h => ?_, fun creds h => ?_, fun cNew now2 hok hexp => ?_⟩
  · simp [fromAuthCode, h]
  · simp [fromAuthCode, h, tokenFromCode]
  · cases hcr : opts.creds with
    | none => simp [fromAuthCode, hcr] at hok
    | some creds =>
      simp [fromAuthCode, hcr, tokenFromCode] at hok
      subst hok
      simp [clientUpdateAccessToken, obtainOrRefresh, hcr, not_lt.mpr hexp, grantForAuth]







/-- Witness for C9: a concrete provider issuing a token with refresh
value `"rt"`; with credentials the exchange seeds the descriptor with
`"rt"`, without them `fromAuthCode` fails; after expiry (at instant 150)
the next authenticated refresh performs a refresh-token grant for
`"rt"`. -/
theorem fromAuthCode_spec_witness :
    fromAuthCode { creds := none, userAgent := "ua" } "thecode" "https://cb" exampleCodeIssue
      = .error .noCreds ∧
    fromAuthCode exampleCodeOptions "thecode" "https://cb" exampleCodeIssue
      = .ok exampleCodeClient ∧
    clientUpdateAccessToken exampleCodeClient 150 exampleCodeIssue
      = .ok ({ access := "a2", refresh := none, expiration := 200 },
             { exampleCodeClient with token := some { access := "a2", refresh := none, expiration := 200 } },
             [Grant.refreshToken (some "rt")]) :=
  ⟨(fromAuthCode_spec { creds := none, userAgent := "ua" } "thecode" "https://cb"
      exampleCodeIssue).1 rfl,
   (fromAuthCode_spec exampleCodeOptions "thecode" "https://cb" exampleCodeIssue).2.1
      { clientId := "cid", clientSecret := "cs" } rfl,
   (fromAuthCode_spec exampleCodeOptions "thecode" "https://cb" exampleCodeIssue).2.2
      exampleCodeClient 150 rfl (by decide)⟩


end Snoots
